import Mathlib

/-!
Shallow embedding of the SIMUHATER flight-stick reader
(`src/flight_stick_reader.py`): the auxiliary control-panel channel
configuration and processing (`ControlPanelConfig`), the throttle-quadrant
calibration (`calibrate_throttle`, `calibrate_reverse`, `calibrate_simple`),
the per-profile output mappings (`map_controls_msfs`, `map_controls_vjoy`,
`apply_mapping`) and the Switch-type edge-triggered latch of
`process_control_panel`.  Python floats are modelled as exact rationals;
Python `int()` (truncation toward zero) is modelled by `pyInt`.
-/

namespace Simuhater

/-- Python `int()` applied to a numeric value: truncation toward zero. -/
def pyInt (x : ℚ) : ℤ := if x < 0 then -⌊-x⌋ else ⌊x⌋

/-! ## Control panel channel configuration (`ControlPanelConfig`) -/

/-- One entry of `ControlPanelConfig.pot_config`
(`flight_stick_reader.py` lines 42-54).  The `type` field is the literal
string stored in the Python dict, validated against `CONTROL_TYPES`. -/
structure PotConfig where
  name : String
  type : String
  invert : Bool
  min : ℚ
  max : ℚ
  threshold : ℚ
  vjoy_axis : Option String
  button_id : Option ℤ
  calibrated_min : ℚ
  calibrated_max : ℚ
deriving DecidableEq

/-- `ControlPanelConfig.CONTROL_TYPES` (line 36). -/
def CONTROL_TYPES : List String := ["Axis", "Switch", "Button", "Disabled"]

/-- The default settings of pot `i` built in `ControlPanelConfig.__init__`
(lines 42-54). -/
def initPot (i : ℕ) : PotConfig :=
  { name := "Pot " ++ toString (i + 1)
    type := "Axis"
    invert := false
    min := 0
    max := 100
    threshold := 50
    vjoy_axis := none
    button_id := none
    calibrated_min := 0
    calibrated_max := 100 }

/-- The 7-entry `pot_config` list built by `ControlPanelConfig.__init__`. -/
def initPotConfig : List PotConfig := (List.range 7).map initPot

/-- Replace entry `i` of the configuration list (the effect of the guarded
Python assignment `self.pot_config[index][...] = ...`). -/
def modifyPot (f : PotConfig → PotConfig) : ℕ → List PotConfig → List PotConfig
  | _, [] => []
  | 0, p :: rest => f p :: rest
  | n + 1, p :: rest => p :: modifyPot f n rest

/-- `ControlPanelConfig.set_pot_name` (lines 60-63). -/
def set_pot_name (cfg : List PotConfig) (index : ℤ) (nm : String) : List PotConfig :=
  if 0 ≤ index ∧ index < (cfg.length : ℤ) then
    modifyPot (fun p => { p with name := nm }) index.toNat cfg
  else cfg

/-- `ControlPanelConfig.set_pot_type` (lines 65-68): the update happens only
when the index is in range AND the type name is one of `CONTROL_TYPES`. -/
def set_pot_type (cfg : List PotConfig) (index : ℤ) (type_name : String) : List PotConfig :=
  if (0 ≤ index ∧ index < (cfg.length : ℤ)) ∧ type_name ∈ CONTROL_TYPES then
    modifyPot (fun p => { p with type := type_name }) index.toNat cfg
  else cfg

/-- `ControlPanelConfig.set_pot_threshold` (lines 70-73). -/
def set_pot_threshold (cfg : List PotConfig) (index : ℤ) (threshold : ℚ) : List PotConfig :=
  if 0 ≤ index ∧ index < (cfg.length : ℤ) then
    modifyPot (fun p => { p with threshold := threshold }) index.toNat cfg
  else cfg

/-- `ControlPanelConfig.toggle_pot_inversion` (lines 75-78). -/
def toggle_pot_inversion (cfg : List PotConfig) (index : ℤ) : List PotConfig :=
  if 0 ≤ index ∧ index < (cfg.length : ℤ) then
    modifyPot (fun p => { p with invert := !p.invert }) index.toNat cfg
  else cfg

/-- `ControlPanelConfig.calibrate_pot_min` (lines 80-83). -/
def calibrate_pot_min (cfg : List PotConfig) (index : ℤ) (value : ℚ) : List PotConfig :=
  if 0 ≤ index ∧ index < (cfg.length : ℤ) then
    modifyPot (fun p => { p with calibrated_min := value }) index.toNat cfg
  else cfg

/-- `ControlPanelConfig.calibrate_pot_max` (lines 85-88). -/
def calibrate_pot_max (cfg : List PotConfig) (index : ℤ) (value : ℚ) : List PotConfig :=
  if 0 ≤ index ∧ index < (cfg.length : ℤ) then
    modifyPot (fun p => { p with calibrated_max := value }) index.toNat cfg
  else cfg

/-- The calibration stage of `ControlPanelConfig.process_pot_value`
(lines 101-120): clamp the raw value into [0, 1023], fall back to the full
raw domain when `calibrated_min >= calibrated_max`, then map linearly to
[0, 100].  This is the channel value before inversion and before the
type-specific interpretation. -/
def potCalibrated (c : PotConfig) (raw_value : ℚ) : ℚ :=
  let raw := max 0 (min 1023 raw_value)
  let cal_min := if c.calibrated_min ≥ c.calibrated_max then (0 : ℚ) else c.calibrated_min
  let cal_max := if c.calibrated_min ≥ c.calibrated_max then (1023 : ℚ) else c.calibrated_max
  if cal_max = cal_min then 50
  else max 0 (min 100 ((raw - cal_min) / (cal_max - cal_min) * 100))

/-- `ControlPanelConfig.process_pot_value` on a single channel configuration
(lines 95-132): disabled check, calibration, inversion, then the
type-specific interpretation. -/
def processPot (c : PotConfig) (raw_value : ℚ) : ℚ :=
  if c.type = "Disabled" then 0
  else
    let calibrated := potCalibrated c raw_value
    let calibrated := if c.invert then 100 - calibrated else calibrated
    if c.type = "Axis" then calibrated
    else if c.type = "Switch" ∨ c.type = "Button" then
      if calibrated > c.threshold then 100 else 0
    else calibrated

/-- `ControlPanelConfig.process_pot_value` (lines 90-132), including the
bounds check on the channel index (line 92): out-of-range indices return 0
without touching the configuration. -/
def process_pot_value (cfg : List PotConfig) (index : ℤ) (raw_value : ℚ) : ℚ :=
  if index < 0 ∨ (cfg.length : ℤ) ≤ index then 0
  else processPot (cfg.getD index.toNat (initPot 0)) raw_value

/-! ## Throttle-quadrant calibration (`FlightControls`) -/

/-- One entry of `FlightControls.calibration` (lines 165-170): a dict
`{'min': _, 'max': _, 'idle': _}`. -/
structure AxisCal where
  min : ℚ
  max : ℚ
  idle : ℚ
deriving DecidableEq

/-- `FlightControls.calibrate_simple` (lines 190-207). -/
def calibrate_simple (cal : AxisCal) (value : ℚ) : ℚ :=
  if value ≤ cal.idle then 0
  else if cal.max = cal.idle then 100
  else max 0 (min 1 ((value - cal.idle) / (cal.max - cal.idle))) * 100

/-- `FlightControls.calibrate_throttle` (lines 230-247). -/
def calibrate_throttle (cal : AxisCal) (value : ℚ) : ℚ :=
  if value ≤ cal.idle then 0
  else if cal.max = cal.idle then 100
  else max 0 (min 1 ((value - cal.idle) / (cal.max - cal.idle))) * 100

/-- `FlightControls.calibrate_reverse` (lines 249-266). -/
def calibrate_reverse (cal : AxisCal) (value : ℚ) : ℚ :=
  if cal.idle ≤ value then 0
  else if cal.idle = cal.min then 100
  else max 0 (min 1 ((cal.idle - value) / (cal.idle - cal.min))) * 100

/-- `FlightControls.apply_inversion` (lines 280-284). -/
def apply_inversion (invert : Bool) (value : ℚ) : ℚ :=
  if invert then 100 - value else value

/-- `FlightControls.process_throttle_input` (lines 268-278): the pair
(forward, reverse) after calibration and optional inversion. -/
def process_throttle_input (calT calR : AxisCal) (invT invR : Bool) (raw : ℚ) : ℚ × ℚ :=
  (apply_inversion invT (calibrate_throttle calT raw),
   apply_inversion invR (calibrate_reverse calR raw))

/-! ## Output devices and per-profile mappings -/

/-- `ControlProfile` enum (lines 22-27). -/
inductive ControlProfile
  | MSFS
  | DCS
  | XPLANE
  | IL2
  | WAR_THUNDER
deriving DecidableEq

/-- `ControllerType` enum (lines 29-31). -/
inductive ControllerType
  | XBOX
  | VJOY
deriving DecidableEq

/-- The observable state of the `vgamepad` VX360 gamepad: trigger values and
joystick coordinates as last set. -/
structure Gamepad where
  left_trigger : ℤ
  right_trigger : ℤ
  left_x : ℤ
  left_y : ℤ
  right_x : ℤ
  right_y : ℤ
deriving DecidableEq

/-- The four vJoy axis registers the program writes
(`wAxisX`, `wAxisY`, `wAxisZ`, `wAxisXRot`). -/
structure VJoyData where
  wAxisX : ℤ
  wAxisY : ℤ
  wAxisZ : ℤ
  wAxisXRot : ℤ
deriving DecidableEq

/-- `FlightControls.map_controls_msfs` (lines 286-296).  The `throttle`
argument is the net value `forward - reverse` passed by `apply_mapping`. -/
def map_controls_msfs (g : Gamepad) (throttle prop mixture : ℚ) : Gamepad :=
  let g1 :=
    if 0 ≤ throttle then
      { g with right_trigger := pyInt (throttle * 327.67), left_trigger := 0 }
    else
      { g with right_trigger := 0, left_trigger := pyInt (|throttle| * 327.67) }
  { g1 with
    right_x := 0, right_y := pyInt (prop * 655.34 - 32768),
    left_x := 0, left_y := pyInt (mixture * 655.34 - 32768) }

/-- `FlightControls.map_controls_dcs` (lines 298-307). -/
def map_controls_dcs (g : Gamepad) (throttle prop mixture : ℚ) : Gamepad :=
  { g with
    left_x := pyInt (prop * 655.34 - 32768),
    left_y := pyInt (throttle * 655.34 - 32768),
    right_x := 0,
    right_y := pyInt (mixture * 655.34 - 32768) }

/-- `FlightControls.map_controls_xplane` (lines 309-320): note only one
trigger is written, the other keeps its previous value. -/
def map_controls_xplane (g : Gamepad) (throttle prop mixture : ℚ) : Gamepad :=
  let g1 :=
    if 0 ≤ throttle then { g with right_trigger := pyInt (throttle * 327.67) }
    else { g with left_trigger := pyInt (|throttle| * 327.67) }
  { g1 with
    right_x := pyInt (mixture * 655.34 - 32768),
    right_y := pyInt (prop * 655.34 - 32768) }

/-- `FlightControls.map_controls_il2` (lines 322-326); `left_joystick` is
called with only `y_value`, so `x_value` takes its default 0. -/
def map_controls_il2 (g : Gamepad) (throttle prop mixture : ℚ) : Gamepad :=
  { g with
    left_trigger := pyInt ((mixture + 100) * 163.835),
    right_trigger := pyInt ((prop + 100) * 163.835),
    left_x := 0,
    left_y := pyInt (throttle * 655.34 - 32768) }

/-- The state of `FlightControls` relevant to the mapping pipeline:
selected output device, active profile, vJoy availability (`vjoy_dev is not
None`), the two output devices, the four calibration entries, the four
inversion flags and the speedbrake mode. -/
structure FlightControls where
  controller_type : ControllerType
  current_profile : ControlProfile
  vjoy_avail : Bool
  vjoy : VJoyData
  gamepad : Gamepad
  cal_throttle : AxisCal
  cal_reverse : AxisCal
  cal_prop : AxisCal
  cal_mixture : AxisCal
  invert_throttle : Bool
  invert_reverse : Bool
  invert_prop : Bool
  invert_mixture : Bool
  prop_as_speedbrake : Bool
deriving DecidableEq

/-- The clamp `max(0, min(32768, v))` applied to every vJoy axis value. -/
def clampAxis (v : ℤ) : ℤ := max 0 (min 32768 v)

/-- `FlightControls.map_controls_vjoy` (lines 414-467): if the vJoy device
is unavailable the call returns `(0, 0, 0, 0)` at once and the state is
untouched; otherwise forward goes to axis X, reverse to XRot (RX), prop to
Y and mixture to Z, each scaled by 327.68, truncated and clamped, and the
calibrated quadruple is returned. -/
def map_controls_vjoy (s : FlightControls) (throttle_raw prop_raw mixture_raw : ℚ) :
    FlightControls × (ℚ × ℚ × ℚ × ℚ) :=
  if s.vjoy_avail = false then (s, (0, 0, 0, 0))
  else
    let fr := process_throttle_input s.cal_throttle s.cal_reverse
      s.invert_throttle s.invert_reverse throttle_raw
    let prop :=
      if s.prop_as_speedbrake then
        apply_inversion s.invert_prop (calibrate_simple s.cal_prop prop_raw)
      else
        apply_inversion s.invert_prop (calibrate_simple s.cal_prop prop_raw)
    let mixture := apply_inversion s.invert_mixture (calibrate_simple s.cal_mixture mixture_raw)
    let forward_value := clampAxis (pyInt (fr.1 * 327.68))
    let reverse_value := clampAxis (pyInt (fr.2 * 327.68))
    let prop_value := clampAxis (pyInt (prop * 327.68))
    let mixture_value := clampAxis (pyInt (mixture * 327.68))
    ({ s with
        vjoy :=
          { wAxisX := forward_value, wAxisXRot := reverse_value,
            wAxisY := prop_value, wAxisZ := mixture_value } },
     (fr.1, fr.2, prop, mixture))

/-- `FlightControls.apply_mapping` (lines 382-406): calibrate prop and
mixture, then route to the vJoy mapping when the controller type is `VJOY`
or the profile is War Thunder, otherwise to the per-profile gamepad
mapping, passing the net throttle `forward - reverse`.  (The
`WAR_THUNDER` arm of the gamepad match is unreachable: that profile always
takes the vJoy branch.) -/
def apply_mapping (s : FlightControls) (throttle_raw prop_raw mixture_raw : ℚ) :
    FlightControls × (ℚ × ℚ × ℚ × ℚ) :=
  let prop := apply_inversion s.invert_prop (calibrate_simple s.cal_prop prop_raw)
  let mixture := apply_inversion s.invert_mixture (calibrate_simple s.cal_mixture mixture_raw)
  if s.controller_type = ControllerType.VJOY ∨
      s.current_profile = ControlProfile.WAR_THUNDER then
    map_controls_vjoy s throttle_raw prop_raw mixture_raw
  else
    let fr := process_throttle_input s.cal_throttle s.cal_reverse
      s.invert_throttle s.invert_reverse throttle_raw
    let g :=
      match s.current_profile with
      | ControlProfile.MSFS => map_controls_msfs s.gamepad (fr.1 - fr.2) prop mixture
      | ControlProfile.DCS => map_controls_dcs s.gamepad (fr.1 - fr.2) prop mixture
      | ControlProfile.XPLANE => map_controls_xplane s.gamepad (fr.1 - fr.2) prop mixture
      | ControlProfile.IL2 => map_controls_il2 s.gamepad (fr.1 - fr.2) prop mixture
      | ControlProfile.WAR_THUNDER => s.gamepad
    ({ s with gamepad := g }, (fr.1, fr.2, prop, mixture))

/-! ## Switch-type edge-triggered latch (`process_control_panel`, lines 538-576) -/

/-- The Switch/Button branch of `process_pot_value` (lines 129-130): the
processed value fed to the latch is 100 when the calibrated value exceeds
the threshold, else 0. -/
def switchProcessed (threshold calibrated : ℚ) : ℚ :=
  if calibrated > threshold then 100 else 0

/-- One step of the Switch-type latch of `process_control_panel`
(lines 547-576) on the state (`last_pot_values` entry, `button_states`
entry).  `current_threshold_state` is `processed > threshold`; the stored
button state is toggled only on a below-to-above transition, and the
threshold state is stored for the next sample. -/
def switchStep (threshold : ℚ) (st : Bool × ℕ) (calibrated : ℚ) : Bool × ℕ :=
  let above := decide (switchProcessed threshold calibrated > threshold)
  let btn :=
    if above ≠ st.1 then
      if above then (if st.2 = 0 then 1 else 0) else st.2
    else st.2
  (above, btn)

/-- Number of times the stored button state changes while feeding a list of
calibrated values through the Switch latch. -/
def switchFlips (threshold : ℚ) (st : Bool × ℕ) : List ℚ → ℕ
  | [] => 0
  | c :: rest =>
    (if (switchStep threshold st c).2 = st.2 then 0 else 1) +
      switchFlips threshold (switchStep threshold st c) rest

/-- Number of upward (false-to-true) transitions in a boolean sequence,
given the state before the first sample. -/
def upwardCrossings (prev : Bool) : List Bool → ℕ
  | [] => 0
  | b :: rest => (if b = true ∧ prev = false then 1 else 0) + upwardCrossings b rest

/-! ## Concrete inputs used by witnesses and counterexamples -/

/-- A channel whose calibrated range has zero width. -/
def zeroWidthPot : PotConfig :=
  { name := "Pot 1"
    type := "Axis"
    invert := false
    min := 0
    max := 100
    threshold := 50
    vjoy_axis := none
    button_id := none
    calibrated_min := 500
    calibrated_max := 500 }

/-- A gamepad with all outputs at rest. -/
def gamepadInit : Gamepad :=
  { left_trigger := 0, right_trigger := 0
    left_x := 0, left_y := 0, right_x := 0, right_y := 0 }

/-- vJoy axis registers at rest. -/
def vjoyInit : VJoyData :=
  { wAxisX := 0, wAxisY := 0, wAxisZ := 0, wAxisXRot := 0 }

/-- The throttle calibration scenario `{min: 0, idle: 200, max: 1000}`. -/
def calScenario : AxisCal := { min := 0, max := 1000, idle := 200 }

/-- A `FlightControls` state on the War Thunder profile with the vJoy
device available. -/
def fcWarThunder : FlightControls :=
  { controller_type := ControllerType.XBOX
    current_profile := ControlProfile.WAR_THUNDER
    vjoy_avail := true
    vjoy := vjoyInit
    gamepad := gamepadInit
    cal_throttle := calScenario
    cal_reverse := calScenario
    cal_prop := { min := 0, max := 100, idle := 0 }
    cal_mixture := { min := 0, max := 100, idle := 0 }
    invert_throttle := false
    invert_reverse := false
    invert_prop := false
    invert_mixture := false
    prop_as_speedbrake := false }

/-- A `FlightControls` state whose vJoy device failed to initialise
(`vjoy_dev is None`), with identity-like calibration `{min 0, idle 0,
max 100}` on the throttle. -/
def fcNoVjoy : FlightControls :=
  { controller_type := ControllerType.VJOY
    current_profile := ControlProfile.WAR_THUNDER
    vjoy_avail := false
    vjoy := vjoyInit
    gamepad := gamepadInit
    cal_throttle := { min := 0, max := 100, idle := 0 }
    cal_reverse := { min := 0, max := 100, idle := 0 }
    cal_prop := { min := 0, max := 100, idle := 0 }
    cal_mixture := { min := 0, max := 100, idle := 0 }
    invert_throttle := false
    invert_reverse := false
    invert_prop := false
    invert_mixture := false
    prop_as_speedbrake := false }

/-! ## Helper lemmas -/

theorem clamp01_mul100_nonneg (q : ℚ) : 0 ≤ max 0 (min 1 q) * 100 :=
  mul_nonneg (le_max_left 0 _) (by norm_num)

theorem clamp01_mul100_le (q : ℚ) : max 0 (min 1 q) * 100 ≤ 100 := by
  have h : max 0 (min 1 q) ≤ 1 := max_le (by norm_num) (min_le_left _ _)
  nlinarith

theorem calibrate_throttle_bounds (cal : AxisCal) (r : ℚ) :
    0 ≤ calibrate_throttle cal r ∧ calibrate_throttle cal r ≤ 100 := by
  unfold calibrate_throttle
  split_ifs
  · norm_num
  · norm_num
  · exact ⟨clamp01_mul100_nonneg _, clamp01_mul100_le _⟩

theorem calibrate_reverse_bounds (cal : AxisCal) (r : ℚ) :
    0 ≤ calibrate_reverse cal r ∧ calibrate_reverse cal r ≤ 100 := by
  unfold calibrate_reverse
  split_ifs
  · norm_num
  · norm_num
  · exact ⟨clamp01_mul100_nonneg _, clamp01_mul100_le _⟩

/-! ## Claim theorems -/

/-- C6: in IdleSplit calibration with inversion disabled, every raw value at
or below the throttle idle point yields forward 0, every raw value at or
above the reverse idle point yields reverse 0, and both outputs always lie
in [0, 100] for any raw input. -/
theorem idleSplit_zero_sides (calT calR : AxisCal) (r : ℚ) :
    (r ≤ calT.idle → (process_throttle_input calT calR false false r).1 = 0) ∧
    (calR.idle ≤ r → (process_throttle_input calT calR false false r).2 = 0) ∧
    (0 ≤ (process_throttle_input calT calR false false r).1 ∧
      (process_throttle_input calT calR false false r).1 ≤ 100) ∧
    (0 ≤ (process_throttle_input calT calR false false r).2 ∧
      (process_throttle_input calT calR false false r).2 ≤ 100) := by
  have hf : (process_throttle_input calT calR false false r).1 = calibrate_throttle calT r := rfl
  have hrv : (process_throttle_input calT calR false false r).2 = calibrate_reverse calR r := rfl
  rw [hf, hrv]
  refine ⟨fun h => ?_, fun h => ?_, calibrate_throttle_bounds _ _, calibrate_reverse_bounds _ _⟩
  · unfold calibrate_throttle
    rw [if_pos h]
  · unfold calibrate_reverse
    rw [if_pos h]

/-- Witness for C6: with calibration `{min 0, idle 200, max 1000}`, raw 100
is below idle so forward is 0, and raw 1000 is above idle so reverse is 0. -/
theorem idleSplit_zero_sides_witness :
    ((100 : ℚ) ≤ calScenario.idle ∧
      (process_throttle_input calScenario calScenario false false 100).1 = 0) ∧
    (calScenario.idle ≤ (1000 : ℚ) ∧
      (process_throttle_input calScenario calScenario false false 1000).2 = 0) :=
  ⟨⟨by norm_num [calScenario],
    (idleSplit_zero_sides calScenario calScenario 100).1 (by norm_num [calScenario])⟩,
   ⟨by norm_num [calScenario],
    (idleSplit_zero_sides calScenario calScenario 1000).2.1 (by norm_num [calScenario])⟩⟩

/-- C7: with throttle and reverse calibration `{min: 0, idle: 200,
max: 1000}` and inversion disabled, raw 0 gives (forward, reverse) =
(0, 100), raw 200 gives (0, 0) and raw 1000 gives (100, 0). -/
theorem throttle_scenario_0_200_1000 :
    process_throttle_input calScenario calScenario false false 0 = (0, 100) ∧
    process_throttle_input calScenario calScenario false false 200 = (0, 0) ∧
    process_throttle_input calScenario calScenario false false 1000 = (100, 0) := by
  norm_num [process_throttle_input, calibrate_throttle, calibrate_reverse,
    apply_inversion, calScenario]

/-- Counterexample for C8: it is not true that the startup channel
configuration defaults `calibrated_min`/`calibrated_max` to the full raw
domain 0-1023: the created entries have `calibrated_max = 100`. -/
theorem initPotConfig_not_full_range :
    ¬ (∀ c ∈ initPotConfig, c.calibrated_min = 0 ∧ c.calibrated_max = 1023) := by
  norm_num [initPotConfig, initPot, List.range_succ]

/-- C8 (amended): every one of the 7 channel configurations created at
startup has `calibrated_min = 0` and `calibrated_max = 100` (not 1023). -/
theorem initPotConfig_defaults :
    initPotConfig.length = 7 ∧
      ∀ c ∈ initPotConfig, c.calibrated_min = 0 ∧ c.calibrated_max = 100 := by
  refine ⟨rfl, ?_⟩
  norm_num [initPotConfig, initPot, List.range_succ]

/-- Witness for C8 (amended): the first startup channel is in the list and
has the stated default calibration bounds. -/
theorem initPotConfig_defaults_witness :
    initPot 0 ∈ initPotConfig ∧
      (initPot 0).calibrated_min = 0 ∧ (initPot 0).calibrated_max = 100 :=
  ⟨List.mem_map_of_mem initPot (by decide),
   initPotConfig_defaults.2 (initPot 0) (List.mem_map_of_mem initPot (by decide))⟩

/-- C9: for every channel index outside [0, 6] (in particular any negative
index) and every raw value, `process_pot_value` on a 7-channel
configuration returns 0.  The embedding is a total pure function, so no
exception is possible and no configuration or toggle state is touched. -/
theorem process_pot_value_out_of_range (cfg : List PotConfig) (index : ℤ) (raw : ℚ)
    (hlen : cfg.length = 7) (h : index < 0 ∨ 6 < index) :
    process_pot_value cfg index raw = 0 := by
  have hguard : index < 0 ∨ (cfg.length : ℤ) ≤ index := by omega
  rw [process_pot_value, if_pos hguard]

/-- Witness for C9: index 7 on the startup configuration returns 0. -/
theorem process_pot_value_out_of_range_witness :
    initPotConfig.length = 7 ∧ (6 : ℤ) < 7 ∧ process_pot_value initPotConfig 7 500 = 0 :=
  ⟨rfl, by norm_num,
   process_pot_value_out_of_range initPotConfig 7 500 rfl (Or.inr (by norm_num))⟩

/-- C10: every `ControlPanelConfig` setter invoked with invalid arguments
leaves the configuration unchanged: `set_pot_type` with a type name outside
`CONTROL_TYPES` changes nothing at any index, and every setter with an
index outside [0, 6] (on the 7-channel configuration) changes nothing. -/
theorem setters_noop_on_invalid (cfg : List PotConfig) (index : ℤ) (nm tn : String)
    (th v : ℚ) (hlen : cfg.length = 7) :
    (tn ∉ CONTROL_TYPES → ∀ j : ℤ, set_pot_type cfg j tn = cfg) ∧
    (index < 0 ∨ 6 < index →
      set_pot_name cfg index nm = cfg ∧
      set_pot_type cfg index tn = cfg ∧
      set_pot_threshold cfg index th = cfg ∧
      toggle_pot_inversion cfg index = cfg ∧
      calibrate_pot_min cfg index v = cfg ∧
      calibrate_pot_max cfg index v = cfg) := by
  constructor
  · intro htn j
    rw [set_pot_type, if_neg]
    exact fun hc => htn hc.2
  · intro hidx
    have hguard : ¬ (0 ≤ index ∧ index < (cfg.length : ℤ)) := by omega
    refine ⟨?_, ?_, ?_, ?_, ?_, ?_⟩
    · rw [set_pot_name, if_neg hguard]
    · rw [set_pot_type, if_neg (fun hc => hguard hc.1)]
    · rw [set_pot_threshold, if_neg hguard]
    · rw [toggle_pot_inversion, if_neg hguard]
    · rw [calibrate_pot_min, if_neg hguard]
    · rw [calibrate_pot_max, if_neg hguard]

/-- Witness for C10: the unknown type name "Slider" and the out-of-range
index -1 leave the startup configuration unchanged. -/
theorem setters_noop_on_invalid_witness :
    "Slider" ∉ CONTROL_TYPES ∧
    set_pot_type initPotConfig 0 "Slider" = initPotConfig ∧
    set_pot_name initPotConfig (-1) "X" = initPotConfig ∧
    toggle_pot_inversion initPotConfig (-1) = initPotConfig :=
  ⟨by decide,
   (setters_noop_on_invalid initPotConfig (-1) "X" "Slider" 0 0 rfl).1 (by decide) 0,
   ((setters_noop_on_invalid initPotConfig (-1) "X" "Slider" 0 0 rfl).2
      (Or.inl (by norm_num))).1,
   ((setters_noop_on_invalid initPotConfig (-1) "X" "Slider" 0 0 rfl).2
      (Or.inl (by norm_num))).2.2.2.1⟩

/-- Counterexample for C4: an Axis channel with zero-width calibration
range (`calibrated_min = calibrated_max = 500`) does not return the fixed
midpoint 50: at raw input 0 it returns 0 (the `>=` degenerate-range check
fires first and remaps over the full raw domain, so the midpoint branch is
unreachable). -/
theorem zero_width_not_midpoint :
    processPot zeroWidthPot 0 = 0 ∧ ((0 : ℚ) ≠ 50) := by
  constructor
  · norm_num [processPot, potCalibrated, zeroWidthPot]
  · norm_num

/-- C4 (amended): for a channel whose `calibrated_min >= calibrated_max`
(zero-width as well as inverted bounds), the calibration stage of
`process_pot_value` totally returns the clamped mapping of the raw value
over the full raw domain [0, 1023] — not the midpoint 50. -/
theorem potCalibrated_degenerate_full_range (c : PotConfig) (r : ℚ)
    (hdeg : c.calibrated_min ≥ c.calibrated_max) :
    potCalibrated c r =
      max 0 (min 100 ((max 0 (min 1023 r) - 0) / (1023 - 0) * 100)) := by
  unfold potCalibrated
  simp only [if_pos hdeg]
  rw [if_neg (by norm_num : ¬ (1023 : ℚ) = 0)]

/-- Witness for C4 (amended): the zero-width channel at raw 0 maps over the
full raw domain. -/
theorem potCalibrated_degenerate_full_range_witness :
    zeroWidthPot.calibrated_min ≥ zeroWidthPot.calibrated_max ∧
    potCalibrated zeroWidthPot 0 =
      max 0 (min 100 ((max 0 (min 1023 (0 : ℚ)) - 0) / (1023 - 0) * 100)) :=
  ⟨le_refl _, potCalibrated_degenerate_full_range zeroWidthPot 0 (le_refl _)⟩

/-- Counterexample for C2: under the MSFS profile with forward = 80 and
reverse = 0, the right-trigger value written by the code is
`int(80 * 327.67) = 26213`, which is not `round(80 * 32767 / 100) = 26214`:
the code truncates, it does not round. -/
theorem msfs_trigger_round_counterexample :
    (map_controls_msfs gamepadInit ((80 : ℚ) - 0) 0 0).right_trigger ≠
      round ((80 : ℚ) * 32767 / 100) := by
  norm_num [map_controls_msfs, gamepadInit, pyInt, round_eq]

/-- C2 (amended): under the MSFS profile the two triggers are mutually
exclusive — at most one is non-zero, selected by the sign of the net
throttle `forward - reverse` — and the selected trigger's value is the
truncation `int(percentage * 327.67)` of the net percentage (not its
rounding). -/
theorem msfs_triggers_exclusive (g : Gamepad) (forward reverse prop mixture : ℚ) :
    ((map_controls_msfs g (forward - reverse) prop mixture).left_trigger = 0 ∨
      (map_controls_msfs g (forward - reverse) prop mixture).right_trigger = 0) ∧
    (reverse ≤ forward →
      (map_controls_msfs g (forward - reverse) prop mixture).right_trigger =
        pyInt ((forward - reverse) * 327.67) ∧
      (map_controls_msfs g (forward - reverse) prop mixture).left_trigger = 0) ∧
    (forward < reverse →
      (map_controls_msfs g (forward - reverse) prop mixture).left_trigger =
        pyInt ((reverse - forward) * 327.67) ∧
      (map_controls_msfs g (forward - reverse) prop mixture).right_trigger = 0) := by
  unfold map_controls_msfs
  by_cases h : 0 ≤ forward - reverse
  · rw [if_pos h]
    exact ⟨Or.inl rfl, fun _ => ⟨rfl, rfl⟩, fun hc => absurd h (by linarith)⟩
  · rw [if_neg h]
    have habs : |forward - reverse| = reverse - forward := by
      rw [abs_of_neg (by linarith)]
      ring
    refine ⟨Or.inr rfl, fun hle => absurd hle (by linarith), fun _ => ⟨?_, rfl⟩⟩
    show pyInt (|forward - reverse| * 327.67) = pyInt ((reverse - forward) * 327.67)
    rw [habs]

/-- Witness for C2 (amended): forward = 80, reverse = 0 selects the right
trigger with value `int(80 * 327.67) = 26213` and zero left trigger. -/
theorem msfs_triggers_exclusive_witness :
    (0 : ℚ) ≤ 80 ∧
    (map_controls_msfs gamepadInit ((80 : ℚ) - 0) 0 0).right_trigger =
      pyInt (((80 : ℚ) - 0) * 327.67) ∧
    (map_controls_msfs gamepadInit ((80 : ℚ) - 0) 0 0).left_trigger = 0 ∧
    pyInt (((80 : ℚ) - 0) * 327.67) = 26213 :=
  ⟨by norm_num,
   ((msfs_triggers_exclusive gamepadInit 80 0 0 0).2.1 (by norm_num)).1,
   ((msfs_triggers_exclusive gamepadInit 80 0 0 0).2.1 (by norm_num)).2,
   by norm_num [pyInt]⟩

/-- C3: whenever the active profile is War Thunder, `apply_mapping` routes
through the vJoy (ExtendedJoystick) mapping regardless of the selected
controller type, the gamepad state is untouched, and — when the vJoy device
is available — forward goes to axis X, reverse to axis XRot (RX), prop to
axis Y and mixture to axis Z. -/
theorem war_thunder_routes_to_vjoy (s : FlightControls) (t p m : ℚ)
    (hprof : s.current_profile = ControlProfile.WAR_THUNDER) :
    apply_mapping s t p m = map_controls_vjoy s t p m ∧
    (apply_mapping s t p m).1.gamepad = s.gamepad ∧
    (s.vjoy_avail = true →
      (apply_mapping s t p m).1.vjoy =
        { wAxisX := clampAxis (pyInt ((process_throttle_input s.cal_throttle s.cal_reverse
            s.invert_throttle s.invert_reverse t).1 * 327.68))
          wAxisY := clampAxis (pyInt
            (apply_inversion s.invert_prop (calibrate_simple s.cal_prop p) * 327.68))
          wAxisZ := clampAxis (pyInt
            (apply_inversion s.invert_mixture (calibrate_simple s.cal_mixture m) * 327.68))
          wAxisXRot := clampAxis (pyInt ((process_throttle_input s.cal_throttle s.cal_reverse
            s.invert_throttle s.invert_reverse t).2 * 327.68)) }) := by
  have hroute : apply_mapping s t p m = map_controls_vjoy s t p m := by
    unfold apply_mapping
    rw [if_pos (Or.inr hprof)]
  refine ⟨hroute, ?_, ?_⟩
  · rw [hroute]
    unfold map_controls_vjoy
    by_cases hav : s.vjoy_avail = false
    · rw [if_pos hav]
    · rw [if_neg hav]
  · intro hav
    rw [hroute]
    unfold map_controls_vjoy
    rw [if_neg (by simp [hav])]
    simp only [ite_self]

/-- Witness for C3: on the concrete War Thunder state the mapping call is
the vJoy mapping and the gamepad is unchanged. -/
theorem war_thunder_routes_to_vjoy_witness :
    fcWarThunder.current_profile = ControlProfile.WAR_THUNDER ∧
    apply_mapping fcWarThunder 0 0 0 = map_controls_vjoy fcWarThunder 0 0 0 ∧
    (apply_mapping fcWarThunder 0 0 0).1.gamepad = fcWarThunder.gamepad :=
  ⟨rfl, (war_thunder_routes_to_vjoy fcWarThunder 0 0 0 rfl).1,
   (war_thunder_routes_to_vjoy fcWarThunder 0 0 0 rfl).2.1⟩

/-- Counterexample for C5: with the vJoy device unavailable, the mapping
call does not return the computed logical command set: at raw throttle 100
(identity-like calibration) the logical forward value is 100, yet the call
returns forward = 0 (the fixed `(0, 0, 0, 0)` tuple), with no distinct
unavailability condition in the return value. -/
theorem sink_unavailable_counterexample :
    (map_controls_vjoy fcNoVjoy 100 0 0).2.1 = 0 ∧
    (process_throttle_input fcNoVjoy.cal_throttle fcNoVjoy.cal_reverse
        fcNoVjoy.invert_throttle fcNoVjoy.invert_reverse 100).1 = 100 ∧
    ((0 : ℚ) ≠ 100) := by
  refine ⟨?_, ?_, by norm_num⟩
  · norm_num [map_controls_vjoy, fcNoVjoy]
  · norm_num [process_throttle_input, calibrate_throttle, apply_inversion, fcNoVjoy]

/-- C5 (amended): when the vJoy output sink is unavailable, the mapping
call performs no device write (the state is returned unchanged) and returns
the fixed zero tuple `(0, 0, 0, 0)` instead of the computed logical command
set; no distinct condition is signalled. -/
theorem sink_unavailable_returns_zeros (s : FlightControls) (t p m : ℚ)
    (h : s.vjoy_avail = false) :
    map_controls_vjoy s t p m = (s, (0, 0, 0, 0)) := by
  rw [map_controls_vjoy, if_pos h]

/-- Witness for C5 (amended): the concrete unavailable-sink state returns
the zero tuple unchanged. -/
theorem sink_unavailable_returns_zeros_witness :
    fcNoVjoy.vjoy_avail = false ∧
    map_controls_vjoy fcNoVjoy 1 2 3 = (fcNoVjoy, (0, 0, 0, 0)) :=
  ⟨rfl, sink_unavailable_returns_zeros fcNoVjoy 1 2 3 rfl⟩

/-- The Switch latch condition `processed > threshold` coincides with
`calibrated > threshold` whenever the threshold lies in [0, 100). -/
theorem switchProcessed_gt_iff (th c : ℚ) (h0 : 0 ≤ th) (h1 : th < 100) :
    switchProcessed th c > th ↔ c > th := by
  unfold switchProcessed
  split_ifs with h
  · exact iff_of_true h1 h
  · exact iff_of_false (by linarith) h

/-- C1: for a Switch-type channel with threshold in [0, 100), the number of
flips of the stored button state over a calibrated-value sequence equals
the number of upward threshold crossings of that sequence (starting from
the stored previous threshold state): the state flips exactly on
below-to-above transitions and is unchanged on above-to-below transitions
and on steady states. -/
theorem switch_flips_eq_upward_crossings (threshold : ℚ)
    (h0 : 0 ≤ threshold) (h1 : threshold < 100) (st : Bool × ℕ) (l : List ℚ) :
    switchFlips threshold st l =
      upwardCrossings st.1 (l.map fun c => decide (c > threshold)) := by
  induction l generalizing st with
  | nil => rfl
  | cons c rest ih =>
    obtain ⟨prev, btn⟩ := st
    have hdec : decide (switchProcessed threshold c > threshold) = decide (c > threshold) := by
      simp only [decide_eq_decide]
      exact switchProcessed_gt_iff threshold c h0 h1
    have hstep : switchStep threshold (prev, btn) c =
        (decide (c > threshold),
         if decide (c > threshold) ≠ prev then
           (if decide (c > threshold) = true then (if btn = 0 then 1 else 0) else btn)
         else btn) := by
      simp only [switchStep, hdec]
    simp only [switchFlips, List.map_cons, upwardCrossings, hstep, ih]
    by_cases hc : c > threshold
    · have hct : decide (c > threshold) = true := decide_eq_true hc
      cases prev
      · simp only [hct]
        by_cases hb : btn = 0
        · simp [hb]
        · simp [hb]
          omega
      · simp [hct]
    · have hcf : decide (c > threshold) = false := decide_eq_false hc
      cases prev <;> simp [hcf]

/-- Witness for C1: threshold 50, initial state (below, off), calibrated
sequence [10, 60, 70, 20, 80] has two upward crossings and produces exactly
two flips of the stored button state. -/
theorem switch_flips_eq_upward_crossings_witness :
    (0 : ℚ) ≤ 50 ∧ (50 : ℚ) < 100 ∧
    switchFlips 50 (false, 0) [10, 60, 70, 20, 80] =
      upwardCrossings false ([(10 : ℚ), 60, 70, 20, 80].map fun c => decide (c > 50)) ∧
    switchFlips 50 (false, 0) [10, 60, 70, 20, 80] = 2 :=
  ⟨by norm_num, by norm_num,
   switch_flips_eq_upward_crossings 50 (by norm_num) (by norm_num) (false, 0) _,
   by norm_num [switchFlips, switchStep, switchProcessed]⟩

end Simuhater
